import Mathlib

/-!
Shallow embedding of the `mischef` TUI composition layer (src/src/lib.rs):
the focus-navigation engine (cursor, area map, directional moves) and the
modal popup state machine (open/resolve/exit, parent-side poll, recursive
render and key dispatch).

Modelling conventions, all noted where they apply:
* `u16` coordinates are `Nat` together with the saturating operations the
  source actually uses (`Rect::right`/`Rect::bottom` are `saturating_add`
  clamped at 65535; `saturating_sub` is `Nat` subtraction).
* A Rust panic (`panic!`, out-of-bounds indexing) is `Option.none`.
* The type-erased popup result `Box<dyn Any>` is modelled as `Nat`.
* User extension points of the `Tab`/`Widget` traits (widget enumeration,
  the capture-or-pass key handlers, `handle_popup_value`, the observer
  closure) are modelled as data on the tab state: the widget list is a
  fixed list of (id, rect) pairs, the capture handlers are pure predicates
  (the trait defaults return `true` and mutate nothing), and calls to
  `handle_popup_value`, the observer closure, widget render and widget key
  handlers are recorded in instrumentation logs so that "called exactly
  once with v" is statable.
* The `proxy` forwarding field (`TabData.proxy`, `set_proxy`) is not
  modelled: the spec never mentions proxies and no claim concerns them;
  every theorem is about tabs whose proxy is `None`.
-/

namespace Mischef

/-- The u16 ceiling used by ratatui's saturating rectangle arithmetic. -/
def u16max : Nat := 65535

/-- `u16::saturating_add`, as used by `Rect::right` and `Rect::bottom`. -/
def satAdd (a b : Nat) : Nat := min (a + b) u16max

/-- `Pos` from the source: an (x, y) cursor point on the u16 grid. -/
structure Pos where
  x : Nat
  y : Nat
deriving DecidableEq, Repr

/-- `ratatui::Rect`: an axis-aligned rectangle (x, y, width, height). -/
structure RectM where
  x : Nat
  y : Nat
  width : Nat
  height : Nat
deriving DecidableEq, Repr

/-- `Rect::left()` = `self.x`. -/
def RectM.left (r : RectM) : Nat := r.x

/-- `Rect::right()` = `self.x.saturating_add(self.width)`. -/
def RectM.right (r : RectM) : Nat := satAdd r.x r.width

/-- `Rect::top()` = `self.y`. -/
def RectM.top (r : RectM) : Nat := r.y

/-- `Rect::bottom()` = `self.y.saturating_add(self.height)`. -/
def RectM.bottom (r : RectM) : Nat := satAdd r.y r.height

/-- Key codes relevant to the dispatch paths of `lib.rs` (`KeyCode`). -/
inductive KC where
  | enter
  | esc
  | leftA
  | rightA
  | upA
  | downA
  | ch (c : Char)
  | other (n : Nat)
deriving DecidableEq, Repr

/-- `Retning` (direction of a focus move). -/
inductive Retning where
  | Up
  | Down
  | Left
  | Right
deriving DecidableEq, Repr

/-- `TryFrom<KeyEvent> for Retning`: arrows, or the vim keys h/j/k/l. -/
def retningOf : KC → Option Retning
  | KC.leftA => some Retning.Left
  | KC.rightA => some Retning.Right
  | KC.upA => some Retning.Up
  | KC.downA => some Retning.Down
  | KC.ch c =>
      if c = 'k' then some Retning.Up
      else if c = 'j' then some Retning.Down
      else if c = 'h' then some Retning.Left
      else if c = 'l' then some Retning.Right
      else none
  | _ => none

/-- `PopUpState`: the three-state popup lifecycle; the `Box<dyn Any>`
resolution value is modelled as a `Nat`. -/
inductive PUState where
  | Exit
  | Continue
  | Resolve (v : Nat)
deriving DecidableEq, Repr

/-- `TabData::isitselected`: half-open containment test of a cursor in a
rectangle, written exactly as the source's comparison chain against
`left`/`right`/`top`/`bottom`. -/
def isitselected (area : RectM) (cursor : Pos) : Bool :=
  decide (area.left ≤ cursor.x) && decide (cursor.x < area.right) &&
  decide (area.top ≤ cursor.y) && decide (cursor.y < area.bottom)

/-- The per-tab state: the fields of `TabData` a claim can observe, plus
the user extension points and instrumentation logs described in the file
header.  `popup` lives on the recursive tab type `TabT` below. -/
structure TD where
  cursor : Pos
  is_selected : Bool
  popup_state : PUState
  /-- whether the `state_modifier` observer closure is present. -/
  state_modifier : Bool
  /-- instrumentation: values the observer closure has been invoked with. -/
  obs_log : List Nat
  /-- the `BTreeMap<String, Rect>` as a key-sorted association list. -/
  area_map : List (String × RectM)
  first_pass : Bool
  key_history : List KC
  /-- user extension point `widgets(area)`: (id, rect) per widget. -/
  widgets : List (String × RectM)
  /-- user extension point `tab_keyhandler_deselected` (default: true). -/
  deselCapture : KC → Bool
  /-- user extension point `tab_keyhandler_selected` (default: true). -/
  selCapture : KC → Bool
  /-- instrumentation: values `handle_popup_value` has been called with. -/
  handled : List Nat
  /-- instrumentation: widget ids rendered by `render`, in order. -/
  renderLog : List String
  /-- instrumentation: (widget id, key) pairs from `widget_keyhandler`. -/
  widgetKeyLog : List (String × KC)

/-- A tab together with its (recursive) popup chain: `TabData.popup`. -/
inductive TabT where
  | node (td : TD) (popup : Option TabT)

/-- The `TabData` part of a tab. -/
def TabT.tdOf : TabT → TD
  | .node d _ => d

/-- `Tab::pop_up` (the modal link). -/
def TabT.popupOf : TabT → Option TabT
  | .node _ p => p

/-- `popup_state` of a tab (used by the parent-side poll). -/
def popStateOf (t : TabT) : PUState := t.tdOf.popup_state

/-- `TabData::insert_key` on the raw history list: trim the 20 oldest
entries when the length exceeds the high-water mark 30, then push. -/
def insert_keyL (h : List KC) (k : KC) : List KC :=
  (if h.length > 30 then h.drop 20 else h) ++ [k]

/-- `TabData::insert_key` on the tab state. -/
def insert_key (td : TD) (k : KC) : TD :=
  { td with key_history := insert_keyL td.key_history k }

/-- `TabData::is_valid_pos`: some area of the map contains the point. -/
def is_valid_pos (td : TD) (p : Pos) : Bool :=
  td.area_map.any (fun q => isitselected q.2 p)

/-- `TabData::current_area`: first area (in `BTreeMap` key order)
containing the cursor; the source's `panic!("omg")` is `none`. -/
def current_area (td : TD) : Option RectM :=
  (td.area_map.find? (fun q => isitselected q.2 td.cursor)).map (·.2)

/-- `TabData::move_right`: probe one cell past the right edge. -/
def move_right (td : TD) : Option TD :=
  (current_area td).map (fun a =>
    let np : Pos := ⟨a.right, td.cursor.y⟩
    if is_valid_pos td np then { td with cursor := np } else td)

/-- `TabData::move_down`: probe one cell past the bottom edge. -/
def move_down (td : TD) : Option TD :=
  (current_area td).map (fun a =>
    let np : Pos := ⟨td.cursor.x, a.bottom⟩
    if is_valid_pos td np then { td with cursor := np } else td)

/-- `TabData::move_up`: probe one cell above the top edge (saturating). -/
def move_up (td : TD) : Option TD :=
  (current_area td).map (fun a =>
    let np : Pos := ⟨td.cursor.x, a.top - 1⟩
    if is_valid_pos td np then { td with cursor := np } else td)

/-- `TabData::move_left`: probe one cell left of the left edge
(saturating). -/
def move_left (td : TD) : Option TD :=
  (current_area td).map (fun a =>
    let np : Pos := ⟨a.left - 1, td.cursor.y⟩
    if is_valid_pos td np then { td with cursor := np } else td)

/-- `TabData::navigate`. -/
def navigate : Retning → TD → Option TD
  | Retning.Up, td => move_up td
  | Retning.Down, td => move_down td
  | Retning.Left, td => move_left td
  | Retning.Right, td => move_right td

/-- `Tab::move_to_area`: place the cursor at the rectangle's center. -/
def move_to_area (td : TD) (a : RectM) : TD :=
  { td with cursor := ⟨a.x + a.width / 2, a.y + a.height / 2⟩ }

/-- `Tab::validate_pos`: keep the cursor if some widget area contains it,
else jump to the center of the first widget.  The source indexes
`self.widgets(area)[0]` unconditionally at that point, so an empty widget
list panics (out-of-bounds), modelled as `none`. -/
def validate_pos (td : TD) : Option TD :=
  if td.widgets.any (fun w => isitselected w.2 td.cursor) then some td
  else
    match td.widgets with
    | [] => none
    | w :: _ => some (move_to_area td w.2)

/-- One `BTreeMap::insert` into a key-sorted association list (later
inserts with an equal key overwrite). -/
def btreeInsert (m : List (String × RectM)) (kv : String × RectM) :
    List (String × RectM) :=
  match m with
  | [] => [kv]
  | (k, v) :: rest =>
      if kv.1 < k then kv :: (k, v) :: rest
      else if kv.1 = k then (kv.1, kv.2) :: rest
      else (k, v) :: btreeInsert rest kv

/-- `Tab::set_map`: rebuild the area map from the widget enumeration. -/
def set_map (td : TD) : TD :=
  { td with area_map := td.widgets.foldl btreeInsert [] }

/-- `Tab::render` (default impl): `main_render` every widget in order;
the draw effect is recorded in the instrumentation log. -/
def render (td : TD) : TD :=
  { td with renderLog := td.renderLog ++ td.widgets.map (·.1) }

/-- `Tab::widget_keyhandler`: forward the key to the first widget whose
area contains the cursor (the source returns after the first hit). -/
def widget_keyhandler (td : TD) (k : KC) : TD :=
  match td.widgets.find? (fun w => isitselected w.2 td.cursor) with
  | some w => { td with widgetKeyLog := td.widgetKeyLog ++ [(w.1, k)] }
  | none => td

/-- `Tab::tab_keyhandler`: record the key into the history ring, then ask
the selected or deselected tab-level handler whether it captures. -/
def tab_keyhandler (td : TD) (k : KC) : TD × Bool :=
  let td1 := insert_key td k
  (td1, if td.is_selected then td.selCapture k else td.deselCapture k)

/-- The popup-free part of `Tab::entry_keyhandler` (lines after the popup
delegation): selected state handles Esc specially and otherwise runs
`tab_keyhandler` with possible widget dispatch; deselected state handles
Enter, Esc and directional keys before offering the key to
`tab_keyhandler`.  `pre_keyhandler_hook` and `after_keyhandler` are the
trait defaults (no-ops).  `none` is a panic inside `navigate`. -/
def ownKey (k : KC) (td : TD) : Option TD :=
  if td.is_selected then
    if k = KC.esc then some { td with is_selected := false }
    else
      if (tab_keyhandler td k).2 then some (widget_keyhandler (tab_keyhandler td k).1 k)
      else some (tab_keyhandler td k).1
  else
    if k = KC.enter then some { td with is_selected := true }
    else if k = KC.esc then some { td with popup_state := PUState.Exit }
    else
      match retningOf k with
      | some d => navigate d td
      | none => some (tab_keyhandler td k).1

/-- `Tab::resolve_tab`: take the observer closure out (`mem::take`),
invoke it with the value if it was present, then set the tab's own
lifecycle state to `Resolve(value)`. -/
def resolve_tab (t : TabT) (v : Nat) : TabT :=
  match t with
  | .node td pu =>
      let td1 :=
        if td.state_modifier then
          { td with obs_log := td.obs_log ++ [v], state_modifier := false }
        else td
      TabT.node { td1 with popup_state := PUState.Resolve v } pu

/-- `Tab::exit_tab`: set the tab's own lifecycle state to `Exit`. -/
def exit_tab (t : TabT) : TabT :=
  match t with
  | .node td pu => TabT.node { td with popup_state := PUState.Exit } pu

/-- `Tab::should_exit`. -/
def should_exit (t : TabT) : Bool :=
  popStateOf t = PUState.Exit

/-- `Tab::set_popup`: unconditionally install the child as this tab's
popup (the source performs no check on the existing link). -/
def set_popup : TabT → TabT → TabT
  | .node td _, pop => TabT.node td (some pop)

/-- Attach the observer closure to a tab
(`pop.tabdata().state_modifier = Some(f)`). -/
def setModifier : TabT → TabT
  | .node td pu => TabT.node { td with state_modifier := true } pu

/-- `Tab::set_popup_with_modifier`: attach the observer to the child,
then install it as the popup (again without checking the existing link). -/
def set_popup_with_modifier (t : TabT) (pop : TabT) : TabT :=
  set_popup t (setModifier pop)

/-- `Tab::check_popup_value`, the parent-side poll: no link or a running
child leaves the tab unchanged; `Exit` clears the link; `Resolve(v)`
calls `handle_popup_value` with the value (instrumented in `handled`) and
clears the link. -/
def check_popup_value : TabT → TabT
  | .node td none => TabT.node td none
  | .node td (some c) =>
      match popStateOf c with
      | PUState.Exit => TabT.node td none
      | PUState.Continue => TabT.node td (some c)
      | PUState.Resolve v =>
          TabT.node { td with handled := td.handled ++ [v] } none

/-- The popup-free body of `Tab::entry_render`: `set_map`, then
`validate_pos` (which can panic), then `pre_render_hook` (default no-op),
then `render`. -/
def ownRender (td : TD) : Option TD :=
  (validate_pos (set_map td)).map render

/-- `Tab::entry_render`.  The source first runs `check_popup_value`, then
either recurses into the surviving popup or does the tab's own work, and
finally sets `first_pass`; the poll's case analysis is fused into the
match here so that the recursion into the popup child is structural, and
each branch is exactly the corresponding `check_popup_value` outcome. -/
def entry_render : TabT → Option TabT
  | .node td none =>
      (ownRender td).map (fun td2 => TabT.node { td2 with first_pass := true } none)
  | .node td (some c) =>
      match popStateOf c with
      | PUState.Exit =>
          (ownRender td).map (fun td2 => TabT.node { td2 with first_pass := true } none)
      | PUState.Resolve v =>
          (ownRender { td with handled := td.handled ++ [v] }).map
            (fun td2 => TabT.node { td2 with first_pass := true } none)
      | PUState.Continue =>
          (entry_render c).map (fun c2 => TabT.node { td with first_pass := true } (some c2))

/-- `Tab::entry_keyhandler`: with a popup installed the event is forwarded
to the child in full (there is no poll on this path); otherwise the tab's
own key logic `ownKey` runs. -/
def entry_keyhandler (k : KC) : TabT → Option TabT
  | .node td none => (ownKey k td).map (fun td2 => TabT.node td2 none)
  | .node td (some c) =>
      (entry_keyhandler k c).map (fun c2 => TabT.node td (some c2))

/-- A tab state with the field defaults of `TabData::default()` and the
trait-default extension points (capture handlers that return `true`). -/
def baseTD : TD where
  cursor := ⟨0, 0⟩
  is_selected := false
  popup_state := PUState.Continue
  state_modifier := false
  obs_log := []
  area_map := []
  first_pass := false
  key_history := []
  widgets := []
  deselCapture := fun _ => true
  selCapture := fun _ => true
  handled := []
  renderLog := []
  widgetKeyLog := []

/-- Scenario A of the spec: area A. -/
def rectA : RectM := ⟨0, 0, 10, 3⟩

/-- Scenario A of the spec: area B. -/
def rectB : RectM := ⟨10, 0, 10, 3⟩

/-- Scenario A of the spec: both areas in the map, cursor at (5, 1). -/
def scenarioA : TD :=
  { baseTD with cursor := ⟨5, 1⟩, area_map := [("A", rectA), ("B", rectB)] }

/-- Modelled from the spec's words, as the refinement target for the move
algorithm: "compute a candidate point just across that area's boundary in
the requested direction (one unit past the edge, or one unit before the
edge for Up/Left using saturating arithmetic at zero); if the candidate
point is contained by some area in the current set, commit it as the new
cursor, else leave cursor unchanged."  The candidate uses plain `Nat`
arithmetic for the past-the-edge directions. -/
def spec_move (d : Retning) (td : TD) : Option TD :=
  (current_area td).map (fun a =>
    let cand : Pos :=
      match d with
      | Retning.Right => ⟨a.x + a.width, td.cursor.y⟩
      | Retning.Down => ⟨td.cursor.x, a.y + a.height⟩
      | Retning.Left => ⟨a.x - 1, td.cursor.y⟩
      | Retning.Up => ⟨td.cursor.x, a.y - 1⟩
    if is_valid_pos td cand then { td with cursor := cand } else td)

/-- Whether a key dispatched to a popup-free tab reaches `tab_keyhandler`
(the only call site of `insert_key`): in the selected state everything but
Esc does; in the deselected state the key must not be Enter, Esc or a
directional key. -/
def reaches_tab_keyhandler (sel : Bool) (k : KC) : Bool :=
  if sel then decide (k ≠ KC.esc)
  else decide (k ≠ KC.enter) && decide (k ≠ KC.esc) && (retningOf k).isNone

/-- A child popup that has already resolved with value 7. -/
def resolvedChild : TabT :=
  TabT.node { baseTD with popup_state := PUState.Resolve 7 } none

/-- A running (Continue) child popup that owns one widget. -/
def childRunning : TabT :=
  TabT.node { baseTD with widgets := [("w", rectA)] } none

/-- `childRunning` after one render pass of its own. -/
def childRendered : TabT :=
  TabT.node
    { baseTD with
        widgets := [("w", rectA)]
        area_map := [("w", rectA)]
        renderLog := ["w"]
        first_pass := true }
    none

/-! ### Helper lemmas -/

lemma is_valid_pos_high_x (td : TD) (p : Pos) (h : u16max ≤ p.x) :
    is_valid_pos td p = false := by
  have hnot : ¬ (is_valid_pos td p = true) := by
    simp only [is_valid_pos, List.any_eq_true]
    rintro ⟨q, -, hq⟩
    simp only [isitselected, RectM.left, RectM.right, RectM.top, RectM.bottom, satAdd,
      u16max, Bool.and_eq_true, decide_eq_true_eq] at hq
    simp only [u16max] at h
    omega
  simpa using hnot

lemma is_valid_pos_high_y (td : TD) (p : Pos) (h : u16max ≤ p.y) :
    is_valid_pos td p = false := by
  have hnot : ¬ (is_valid_pos td p = true) := by
    simp only [is_valid_pos, List.any_eq_true]
    rintro ⟨q, -, hq⟩
    simp only [isitselected, RectM.left, RectM.right, RectM.top, RectM.bottom, satAdd,
      u16max, Bool.and_eq_true, decide_eq_true_eq] at hq
    simp only [u16max] at h
    omega
  simpa using hnot

lemma valid_sat_x (td : TD) (s y : Nat) :
    is_valid_pos td ⟨min s u16max, y⟩ = is_valid_pos td ⟨s, y⟩ ∧
    (is_valid_pos td ⟨s, y⟩ = true → min s u16max = s) := by
  by_cases hs : s ≤ u16max
  · constructor
    · rw [min_eq_left hs]
    · intro _; exact min_eq_left hs
  · have h1 : is_valid_pos td ⟨min s u16max, y⟩ = false :=
      is_valid_pos_high_x td _ (by simp; omega)
    have h2 : is_valid_pos td ⟨s, y⟩ = false :=
      is_valid_pos_high_x td _ (by simp; omega)
    refine ⟨h1.trans h2.symm, fun h => absurd h (by simp [h2])⟩

lemma valid_sat_y (td : TD) (x s : Nat) :
    is_valid_pos td ⟨x, min s u16max⟩ = is_valid_pos td ⟨x, s⟩ ∧
    (is_valid_pos td ⟨x, s⟩ = true → min s u16max = s) := by
  by_cases hs : s ≤ u16max
  · constructor
    · rw [min_eq_left hs]
    · intro _; exact min_eq_left hs
  · have h1 : is_valid_pos td ⟨x, min s u16max⟩ = false :=
      is_valid_pos_high_y td _ (by simp; omega)
    have h2 : is_valid_pos td ⟨x, s⟩ = false :=
      is_valid_pos_high_y td _ (by simp; omega)
    refine ⟨h1.trans h2.symm, fun h => absurd h (by simp [h2])⟩

lemma probe_commit (td : TD) (p q : Pos)
    (hval : is_valid_pos td p = is_valid_pos td q)
    (heq : is_valid_pos td q = true → p = q) :
    (if is_valid_pos td p then { td with cursor := p } else td) =
    (if is_valid_pos td q then { td with cursor := q } else td) := by
  by_cases hq : is_valid_pos td q = true
  · rw [heq hq]
  · have hp : ¬ (is_valid_pos td p = true) := by rw [hval]; exact hq
    rw [if_neg hp, if_neg hq]

/-! ### Claim theorems -/

/-- C2: directional movement is a local edge probe: it computes the single
candidate point one unit past the current area's edge (Right/Down) or one
unit before it with saturation at zero (Left/Up), commits it exactly when
some area of the current set contains it, and otherwise leaves the cursor
unchanged; concretely, with areas A=(0,0,10,3), B=(10,0,10,3) and cursor
(5,1), `move(Right)` sets the cursor to (10,1), which lies inside B. -/
theorem move_is_local_edge_probe :
    (∀ (d : Retning) (td : TD), navigate d td = spec_move d td) ∧
    navigate Retning.Right scenarioA = some { scenarioA with cursor := ⟨10, 1⟩ } ∧
    isitselected rectB ⟨10, 1⟩ = true := by
  refine ⟨?_, by rfl, by rfl⟩
  intro d td
  cases d with
  | Left => rfl
  | Up => rfl
  | Right =>
      show move_right td = spec_move Retning.Right td
      unfold move_right spec_move
      cases h : current_area td with
      | none => rfl
      | some a =>
          simp only [Option.map_some']
          refine congrArg some ?_
          obtain ⟨h1, h2⟩ := valid_sat_x td (a.x + a.width) td.cursor.y
          exact probe_commit td ⟨a.right, td.cursor.y⟩ ⟨a.x + a.width, td.cursor.y⟩ h1
            (fun hv => by rw [show a.right = a.x + a.width from h2 hv])
  | Down =>
      show move_down td = spec_move Retning.Down td
      unfold move_down spec_move
      cases h : current_area td with
      | none => rfl
      | some a =>
          simp only [Option.map_some']
          refine congrArg some ?_
          obtain ⟨h1, h2⟩ := valid_sat_y td td.cursor.x (a.y + a.height)
          exact probe_commit td ⟨td.cursor.x, a.bottom⟩ ⟨td.cursor.x, a.y + a.height⟩ h1
            (fun hv => by rw [show a.bottom = a.y + a.height from h2 hv])

/-- C8 counterexample: the claimed half-open iff (with plain integer
arithmetic) fails on a rectangle whose right edge saturates at the u16
ceiling: R=(60000,0,6000,1), P=(65535,0) satisfies the half-open
inequalities but `isitselected` returns false. -/
theorem containment_iff_counterexample :
    isitselected ⟨60000, 0, 6000, 1⟩ ⟨65535, 0⟩ = false ∧
    60000 ≤ 65535 ∧ 65535 < 60000 + 6000 ∧ 0 ≤ (0 : Nat) ∧ (0 : Nat) < 1 := by
  refine ⟨by rfl, by omega, by omega, Nat.le_refl 0, Nat.zero_lt_one⟩

/-- C8 amended: containment agrees with the half-open interval definition
whenever the rectangle's right and bottom edges do not saturate u16
arithmetic (x+width ≤ 65535 and y+height ≤ 65535); degenerate rectangles
(width 0 or height 0) contain no points unconditionally. -/
theorem containment_iff_no_saturation :
    (∀ (a : RectM) (c : Pos), a.x + a.width ≤ u16max → a.y + a.height ≤ u16max →
      (isitselected a c = true ↔
        (a.x ≤ c.x ∧ c.x < a.x + a.width ∧ a.y ≤ c.y ∧ c.y < a.y + a.height))) ∧
    (∀ (a : RectM) (c : Pos), a.width = 0 ∨ a.height = 0 →
      isitselected a c = false) := by
  constructor
  · intro a c h1 h2
    simp only [isitselected, RectM.left, RectM.right, RectM.top, RectM.bottom, satAdd,
      u16max, Bool.and_eq_true, decide_eq_true_eq] at *
    omega
  · intro a c h
    rw [Bool.eq_false_iff]
    simp only [ne_eq, isitselected, RectM.left, RectM.right, RectM.top, RectM.bottom,
      satAdd, u16max, Bool.and_eq_true, decide_eq_true_eq]
    rcases h with h | h <;> · intro hq; omega

/-- C8 witness: the amended iff applied at R=(0,0,10,3), P=(5,1). -/
theorem containment_iff_no_saturation_witness :
    (0 + 10 ≤ u16max) ∧ (0 + 3 ≤ u16max) ∧
    (isitselected ⟨0, 0, 10, 3⟩ ⟨5, 1⟩ = true ↔
      (0 ≤ 5 ∧ 5 < 0 + 10 ∧ 0 ≤ 1 ∧ 1 < 0 + 3)) :=
  ⟨by decide, by decide,
    containment_iff_no_saturation.1 ⟨0, 0, 10, 3⟩ ⟨5, 1⟩ (by decide) (by decide)⟩

/-- C1: modal resolution is atomic and exactly-once: after the popup calls
`resolve_tab` with value `v` and the parent runs one `check_popup_value`
poll, the observer registered when the popup was opened (if any) has been
invoked exactly once with `v`, the parent's `handle_popup_value` has been
called exactly once with `v`, and the modal link is cleared; a second poll
pass changes nothing and invokes neither callback again. -/
theorem modal_resolution_atomic (td ctd : TD) (cpu : Option TabT) (v : Nat) :
    (resolve_tab (TabT.node ctd cpu) v).tdOf.obs_log =
      ctd.obs_log ++ (if ctd.state_modifier then [v] else []) ∧
    check_popup_value (TabT.node td (some (resolve_tab (TabT.node ctd cpu) v))) =
      TabT.node { td with handled := td.handled ++ [v] } none ∧
    check_popup_value (TabT.node { td with handled := td.handled ++ [v] } none) =
      TabT.node { td with handled := td.handled ++ [v] } none := by
  refine ⟨?_, rfl, rfl⟩
  by_cases hb : ctd.state_modifier = true
  · simp [resolve_tab, TabT.tdOf, hb]
  · simp [resolve_tab, TabT.tdOf, hb]

/-- C3 counterexample: with an empty widget set, cursor validation is not
a no-op leaving the cursor in place: `validate_pos` indexes the empty
widget list and panics (modelled as `none`). -/
theorem validate_empty_counterexample :
    validate_pos { baseTD with cursor := ⟨3, 4⟩ } = none ∧
    validate_pos { baseTD with cursor := ⟨3, 4⟩ } ≠
      some { baseTD with cursor := ⟨3, 4⟩ } := by
  refine ⟨rfl, ?_⟩
  intro h
  rw [show validate_pos { baseTD with cursor := ⟨3, 4⟩ } = none from rfl] at h
  exact Option.noConfusion h

/-- C3 amended: when a tab's widget set is empty, `validate_pos` panics
(out-of-bounds index `widgets(area)[0]` on the empty list) instead of
being a safe no-op. -/
theorem validate_empty_panics (td : TD) (h : td.widgets = []) :
    validate_pos td = none := by
  simp [validate_pos, h]

/-- C3 witness: the amended theorem at the default tab state. -/
theorem validate_empty_panics_witness :
    baseTD.widgets = [] ∧ validate_pos baseTD = none :=
  ⟨rfl, validate_empty_panics baseTD rfl⟩

/-- C4 counterexample: calling `set_popup` while a popup is already
installed does not fail; it silently replaces the existing popup (here a
`Continue` child is replaced by a distinct `Exit` child, and the call
returns normally). -/
theorem set_popup_replace_counterexample :
    (set_popup (set_popup (TabT.node baseTD none) (TabT.node baseTD none))
        (exit_tab (TabT.node baseTD none))).popupOf =
      some (exit_tab (TabT.node baseTD none)) ∧
    (set_popup (TabT.node baseTD none) (TabT.node baseTD none)).popupOf =
      some (TabT.node baseTD none) ∧
    exit_tab (TabT.node baseTD none) ≠ TabT.node baseTD none := by
  refine ⟨rfl, rfl, ?_⟩
  intro h
  have h2 := congrArg popStateOf h
  rw [show popStateOf (exit_tab (TabT.node baseTD none)) = PUState.Exit from rfl,
    show popStateOf (TabT.node baseTD none) = PUState.Continue from rfl] at h2
  exact PUState.noConfusion h2

/-- C4 amended: `set_popup` installs the child unconditionally — with no
precondition check and no failure — silently replacing any popup already
installed; `set_popup_with_modifier` does the same after attaching the
observer to the child. -/
theorem set_popup_unchecked_install (t pop pop2 : TabT) :
    (set_popup t pop).popupOf = some pop ∧
    (set_popup (set_popup t pop) pop2).popupOf = some pop2 ∧
    (set_popup_with_modifier t pop).popupOf = some (setModifier pop) := by
  cases t with
  | node td pu => exact ⟨rfl, rfl, rfl⟩

/-- C9 counterexample: with the cursor contained in no area, `move(Right)`
hits the source's `panic!("omg")` in `current_area` (modelled `none`); it
is not a safe no-op returning the state unchanged. -/
theorem move_without_area_counterexample :
    navigate Retning.Right baseTD = none ∧
    navigate Retning.Right baseTD ≠ some baseTD := by
  refine ⟨rfl, ?_⟩
  intro h
  rw [show navigate Retning.Right baseTD = none from rfl] at h
  exact Option.noConfusion h

lemma current_area_none (td : TD) (h : is_valid_pos td td.cursor = false) :
    current_area td = none := by
  unfold is_valid_pos at h
  unfold current_area
  rw [List.find?_eq_none.mpr ?_]
  · rfl
  · intro q hq
    intro hsel
    have : td.area_map.any (fun q => isitselected q.2 td.cursor) = true :=
      List.any_eq_true.mpr ⟨q, hq, hsel⟩
    rw [h] at this
    exact Bool.noConfusion this

/-- C9 amended: for every direction, if no area in the current set
contains the cursor, `navigate` panics inside `current_area` (the source
treats the situation as a contract violation), rather than acting as a
safe no-op. -/
theorem move_without_area_panics (d : Retning) (td : TD)
    (h : is_valid_pos td td.cursor = false) :
    navigate d td = none := by
  cases d <;>
    simp [navigate, move_up, move_down, move_left, move_right, current_area_none td h]

/-- C9 witness: the amended theorem at the default tab state (empty area
map). -/
theorem move_without_area_panics_witness :
    is_valid_pos baseTD baseTD.cursor = false ∧
    navigate Retning.Left baseTD = none :=
  ⟨rfl, move_without_area_panics Retning.Left baseTD rfl⟩

lemma insert_keyL_length (h : List KC) (k : KC) (hb : h.length ≤ 31) :
    (insert_keyL h k).length ≤ 31 := by
  unfold insert_keyL
  by_cases hl : h.length > 30
  · rw [if_pos hl]
    simp only [List.length_append, List.length_drop, List.length_singleton]
    omega
  · rw [if_neg hl]
    simp only [List.length_append, List.length_singleton]
    omega

/-- C10: the key-history ring is bounded: starting from an empty history,
after every `insert_key` the length is at most 31; a trim (triggered when
the length exceeds the high-water mark 30) removes exactly the 20 oldest
entries and keeps the most recent ones in order, and no trim happens at or
below the mark. -/
theorem key_history_bounded :
    (∀ ks : List KC, (ks.foldl insert_keyL []).length ≤ 31) ∧
    (∀ (h : List KC) (k : KC), h.length > 30 → insert_keyL h k = h.drop 20 ++ [k]) ∧
    (∀ (h : List KC) (k : KC), h.length ≤ 30 → insert_keyL h k = h ++ [k]) := by
  refine ⟨?_, ?_, ?_⟩
  · have main : ∀ (ks h : List KC), h.length ≤ 31 →
        ((ks.foldl insert_keyL h).length ≤ 31) := by
      intro ks
      induction ks with
      | nil => intro h hh; simpa using hh
      | cons k rest ih => intro h hh; exact ih _ (insert_keyL_length h k hh)
    intro ks
    exact main ks [] (by simp)
  · intro h k hl
    unfold insert_keyL
    rw [if_pos hl]
  · intro h k hl
    unfold insert_keyL
    rw [if_neg (by omega)]

/-- C10 witness: the bound and both trim behaviours at concrete
histories (length 31 trims the 20 oldest; length 5 only appends). -/
theorem key_history_bounded_witness :
    ((List.replicate 31 KC.esc).length > 30) ∧
    insert_keyL (List.replicate 31 KC.esc) KC.enter =
      (List.replicate 31 KC.esc).drop 20 ++ [KC.enter] ∧
    ((List.replicate 5 KC.esc).length ≤ 30) ∧
    insert_keyL (List.replicate 5 KC.esc) KC.enter =
      List.replicate 5 KC.esc ++ [KC.enter] ∧
    ((List.replicate 31 KC.esc).foldl insert_keyL []).length ≤ 31 :=
  ⟨by decide, key_history_bounded.2.1 _ _ (by decide), by decide,
    key_history_bounded.2.2 _ _ (by decide), key_history_bounded.1 _⟩

lemma widget_keyhandler_key_history (td : TD) (k : KC) :
    (widget_keyhandler td k).key_history = td.key_history := by
  unfold widget_keyhandler
  cases td.widgets.find? (fun w => isitselected w.2 td.cursor) <;> rfl

lemma navigate_key_history (d : Retning) (td u : TD)
    (h : navigate d td = some u) : u.key_history = td.key_history := by
  have main : ∀ (o : Option RectM) (f : RectM → Pos),
      (o.map (fun a => if is_valid_pos td (f a) then { td with cursor := f a } else td)
        = some u) → u.key_history = td.key_history := by
    intro o f ho
    cases o with
    | none => exact Option.noConfusion ho
    | some a =>
        simp only [Option.map_some'] at ho
        have h2 := Option.some.inj ho
        by_cases hv : is_valid_pos td (f a) = true
        · rw [if_pos hv] at h2; rw [← h2]
        · rw [if_neg hv] at h2; rw [← h2]
  cases d with
  | Up => exact main (current_area td) (fun a => ⟨td.cursor.x, a.top - 1⟩) h
  | Down => exact main (current_area td) (fun a => ⟨td.cursor.x, a.bottom⟩) h
  | Left => exact main (current_area td) (fun a => ⟨a.left - 1, td.cursor.y⟩) h
  | Right => exact main (current_area td) (fun a => ⟨a.right, td.cursor.y⟩) h

lemma ownKey_key_history (k : KC) (td td2 : TD) (h : ownKey k td = some td2) :
    td2.key_history =
      (if reaches_tab_keyhandler td.is_selected k then insert_keyL td.key_history k
       else td.key_history) := by
  unfold ownKey at h
  by_cases hsel : td.is_selected = true
  · rw [if_pos hsel] at h
    by_cases hesc : k = KC.esc
    · rw [if_pos hesc] at h
      have h2 := Option.some.inj h
      rw [← h2]
      simp [reaches_tab_keyhandler, hsel, hesc]
    · rw [if_neg hesc] at h
      have hkey : td2.key_history = insert_keyL td.key_history k := by
        by_cases hcap : (tab_keyhandler td k).2 = true
        · rw [if_pos hcap] at h
          have h2 := Option.some.inj h
          rw [← h2, widget_keyhandler_key_history]
          rfl
        · rw [if_neg hcap] at h
          have h2 := Option.some.inj h
          rw [← h2]
          rfl
      rw [hkey]
      simp [reaches_tab_keyhandler, hsel, hesc]
  · rw [if_neg hsel] at h
    by_cases hent : k = KC.enter
    · rw [if_pos hent] at h
      have h2 := Option.some.inj h
      rw [← h2]
      simp [reaches_tab_keyhandler, hsel, hent]
    · rw [if_neg hent] at h
      by_cases hesc : k = KC.esc
      · rw [if_pos hesc] at h
        have h2 := Option.some.inj h
        rw [← h2]
        simp [reaches_tab_keyhandler, hsel, hesc]
      · rw [if_neg hesc] at h
        cases hr : retningOf k with
        | some d =>
            rw [hr] at h
            rw [navigate_key_history d td td2 h]
            simp [reaches_tab_keyhandler, hsel, hent, hesc, hr]
        | none =>
            rw [hr] at h
            have h2 := Option.some.inj h
            rw [← h2]
            simp [tab_keyhandler, insert_key, reaches_tab_keyhandler, hsel, hent, hesc, hr]

/-- C5 counterexample: an Enter key dispatched to a deselected tab with no
popup is consumed by the activation branch and is never recorded into the
key-history ring: dispatch succeeds but the ring stays empty, refuting
"the key is recorded regardless of which branch consumes it". -/
theorem key_history_enter_counterexample :
    (entry_keyhandler KC.enter (TabT.node baseTD none)).map
      (fun t => decide (KC.enter ∈ t.tdOf.key_history)) = some false := rfl

/-- C5 amended: for a key dispatched to a tab with no active popup, the
key is recorded into the history ring exactly when dispatch reaches
`tab_keyhandler`: always except Esc in the selected state, and except
Enter, Esc and directional keys in the deselected state (those branches
consume the key without recording it). -/
theorem key_recorded_iff_tab_keyhandler (td : TD) (k : KC) (t2 : TabT)
    (h : entry_keyhandler k (TabT.node td none) = some t2) :
    t2.tdOf.key_history =
      (if reaches_tab_keyhandler td.is_selected k then insert_keyL td.key_history k
       else td.key_history) := by
  have h' : (ownKey k td).map (fun td2 => TabT.node td2 none) = some t2 := h
  cases ho : ownKey k td with
  | none => rw [ho] at h'; exact Option.noConfusion h'
  | some td2 =>
      rw [ho] at h'
      simp only [Option.map_some'] at h'
      have ht := Option.some.inj h'
      rw [← ht]
      exact ownKey_key_history k td td2 ho

/-- C5 witness: the amended statement at a character key on the default
(deselected, popup-free) tab, where the key is recorded. -/
theorem key_recorded_iff_tab_keyhandler_witness :
    entry_keyhandler (KC.ch 'x') (TabT.node baseTD none) =
      some (TabT.node (tab_keyhandler baseTD (KC.ch 'x')).1 none) ∧
    (TabT.node (tab_keyhandler baseTD (KC.ch 'x')).1 none).tdOf.key_history =
      (if reaches_tab_keyhandler baseTD.is_selected (KC.ch 'x')
       then insert_keyL baseTD.key_history (KC.ch 'x') else baseTD.key_history) :=
  ⟨rfl, key_recorded_iff_tab_keyhandler baseTD (KC.ch 'x') _ rfl⟩

/-- C6 counterexample: with a popup already in `Resolve 7` state, one
key-dispatch pass does not drain it: the event is forwarded into the
finished child, the parent's popup-result handler log stays empty and the
modal link remains installed — refuting "the poll runs once per
key-dispatch pass, before delegating into the child". -/
theorem key_pass_no_poll_counterexample :
    (entry_keyhandler (KC.ch 'x') (TabT.node baseTD (some resolvedChild))).map
      (fun t => (t.popupOf.isSome, t.tdOf.handled)) = some (true, []) := rfl

lemma entry_render_popup (td : TD) (c : TabT) :
    entry_render (TabT.node td (some c)) =
      (match popStateOf c with
       | PUState.Exit =>
           (ownRender td).map (fun td2 => TabT.node { td2 with first_pass := true } none)
       | PUState.Resolve v =>
           (ownRender { td with handled := td.handled ++ [v] }).map
             (fun td2 => TabT.node { td2 with first_pass := true } none)
       | PUState.Continue =>
           (entry_render c).map
             (fun c2 => TabT.node { td with first_pass := true } (some c2))) := rfl

/-- C6 amended: the parent-side poll runs once per render pass, before
delegating into the child: a `Resolve v` popup is drained (handler called
with `v`, link cleared) and the parent then runs its own render work in
that same pass, and an `Exit` popup is likewise cleared; the key-dispatch
pass performs no poll — it forwards the event to the installed child
unconditionally — so a resolved or exited popup is drained only at the
next render pass. -/
theorem poll_only_in_render_pass (td : TD) (c : TabT) (v : Nat) (k : KC) :
    (popStateOf c = PUState.Resolve v →
      entry_render (TabT.node td (some c)) =
        (ownRender { td with handled := td.handled ++ [v] }).map
          (fun td2 => TabT.node { td2 with first_pass := true } none)) ∧
    (popStateOf c = PUState.Exit →
      entry_render (TabT.node td (some c)) =
        (ownRender td).map (fun td2 => TabT.node { td2 with first_pass := true } none)) ∧
    entry_keyhandler k (TabT.node td (some c)) =
      (entry_keyhandler k c).map (fun c2 => TabT.node td (some c2)) := by
  refine ⟨?_, ?_, rfl⟩
  · intro hres
    rw [entry_render_popup, hres]
  · intro hexit
    rw [entry_render_popup, hexit]

/-- C6 witness: the render-pass poll drains a `Resolve 7` popup before the
parent's own work, and a key pass on the same parent only forwards. -/
theorem poll_only_in_render_pass_witness :
    popStateOf resolvedChild = PUState.Resolve 7 ∧
    entry_render (TabT.node baseTD (some resolvedChild)) =
      (ownRender { baseTD with handled := baseTD.handled ++ [7] }).map
        (fun td2 => TabT.node { td2 with first_pass := true } none) ∧
    entry_keyhandler KC.esc (TabT.node baseTD (some resolvedChild)) =
      (entry_keyhandler KC.esc resolvedChild).map
        (fun c2 => TabT.node baseTD (some c2)) :=
  ⟨rfl, (poll_only_in_render_pass baseTD resolvedChild 7 KC.esc).1 rfl,
    (poll_only_in_render_pass baseTD resolvedChild 7 KC.esc).2.2⟩

/-- C7: while a popup is installed and running, the parent performs none
of its own work: the render pass does no area-map rebuild, no cursor
validation and no widget render calls of the parent — every parent field
except `first_pass` is untouched and the pass recurses into the child —
and the key pass (for ANY installed popup) forwards the event entirely to
the child, leaving the parent's cursor, selection flag, key history and
area map unchanged. -/
theorem popup_freezes_parent (td : TD) (c : TabT) (k : KC) :
    (popStateOf c = PUState.Continue →
      entry_render (TabT.node td (some c)) =
        (entry_render c).map
          (fun c2 => TabT.node { td with first_pass := true } (some c2))) ∧
    (∀ t2, popStateOf c = PUState.Continue →
      entry_render (TabT.node td (some c)) = some t2 →
      t2.tdOf.area_map = td.area_map ∧ t2.tdOf.cursor = td.cursor ∧
      t2.tdOf.renderLog = td.renderLog ∧ t2.tdOf.key_history = td.key_history ∧
      t2.tdOf.is_selected = td.is_selected ∧ t2.popupOf.isSome = true) ∧
    entry_keyhandler k (TabT.node td (some c)) =
      (entry_keyhandler k c).map (fun c2 => TabT.node td (some c2)) := by
  have hrender : popStateOf c = PUState.Continue →
      entry_render (TabT.node td (some c)) =
        (entry_render c).map
          (fun c2 => TabT.node { td with first_pass := true } (some c2)) := by
    intro hc
    rw [entry_render_popup, hc]
  refine ⟨hrender, ?_, rfl⟩
  intro t2 hc h2
  rw [hrender hc] at h2
  cases hcr : entry_render c with
  | none => rw [hcr] at h2; exact Option.noConfusion h2
  | some c2 =>
      rw [hcr] at h2
      simp only [Option.map_some'] at h2
      have ht := Option.some.inj h2
      rw [← ht]
      exact ⟨rfl, rfl, rfl, rfl, rfl, rfl⟩

/-- C7 witness: the theorem applied to a parent (Scenario A state) with a
running one-widget child popup, whose render succeeds. -/
theorem popup_freezes_parent_witness :
    popStateOf childRunning = PUState.Continue ∧
    entry_render (TabT.node scenarioA (some childRunning)) =
      (entry_render childRunning).map
        (fun c2 => TabT.node { scenarioA with first_pass := true } (some c2)) ∧
    ((TabT.node { scenarioA with first_pass := true } (some childRendered)).tdOf.area_map
        = scenarioA.area_map ∧
      (TabT.node { scenarioA with first_pass := true } (some childRendered)).tdOf.cursor
        = scenarioA.cursor ∧
      (TabT.node { scenarioA with first_pass := true } (some childRendered)).tdOf.renderLog
        = scenarioA.renderLog ∧
      (TabT.node { scenarioA with first_pass := true } (some childRendered)).tdOf.key_history
        = scenarioA.key_history ∧
      (TabT.node { scenarioA with first_pass := true } (some childRendered)).tdOf.is_selected
        = scenarioA.is_selected ∧
      (TabT.node { scenarioA with first_pass := true } (some childRendered)).popupOf.isSome
        = true) ∧
    entry_keyhandler KC.enter (TabT.node scenarioA (some childRunning)) =
      (entry_keyhandler KC.enter childRunning).map
        (fun c2 => TabT.node scenarioA (some c2)) :=
  ⟨rfl, (popup_freezes_parent scenarioA childRunning KC.enter).1 rfl,
    (popup_freezes_parent scenarioA childRunning KC.enter).2.1
      (TabT.node { scenarioA with first_pass := true } (some childRendered)) rfl rfl,
    (popup_freezes_parent scenarioA childRunning KC.enter).2.2⟩

end Mischef
